import Mathlib

/-!
Verification of the SleeperAIAnalysis core: the resilient HTTP gateway
(src/api/sleeper.py), the on-disk TTL cache, the password-derived
encryption layer (src/utils/encryption.py), and the roster/matchup
resolution routine (src/core/analyzer.py).

The Python code is shallowly embedded: dict-shaped JSON payloads become
an inductive `Json` with Python truthiness, the request loop becomes a
fuel-indexed recursion over a transport oracle (one transport call per
loop iteration), wall-clock times become rationals, and third-party
cryptographic primitives (Fernet, PBKDF2) are abstracted by their
documented contracts.
-/

/-- JSON-like values as handled by the Python code (dicts, lists,
strings, numbers, booleans, null).  Numbers are modelled as integers;
no claim depends on numeric payload contents. -/
inductive Json where
  | null : Json
  | bool (b : Bool) : Json
  | num (n : Int) : Json
  | str (s : String) : Json
  | arr (elems : List Json) : Json
  | obj (fields : List (String × Json)) : Json

/-- Python truthiness of a JSON value: None, False, 0, the empty string,
the empty list and the empty dict are falsy. -/
def pyTruthy : Json → Bool
  | .null => false
  | .bool b => b
  | .num n => n != 0
  | .str s => s != ""
  | .arr elems => !elems.isEmpty
  | .obj fields => !fields.isEmpty

/-- Python dict .get on a JSON object: the value at the key, if the
value is an object and the key is present. -/
def jsonGet (j : Json) (key : String) : Option Json :=
  match j with
  | .obj fields => (fields.find? (fun f => f.1 == key)).map (fun f => f.2)
  | _ => none

/-! ## The gateway request loop (SleeperAPI._make_request)

Each iteration of `for attempt in range(retries + 1)` performs exactly
one transport call (`self.session.get`).  The transport is modelled as
an oracle from the attempt index to the outcome of that call. -/

/-- Outcome of one transport call: an HTTP response (status code,
optional Retry-After header, parsed JSON body), a `requests` Timeout,
or another `RequestException` (transient network failure) carrying its
message. -/
inductive Outcome where
  | http (status : Nat) (retryAfter : Option Nat) (body : Json) : Outcome
  | timeout : Outcome
  | netError (msg : String) : Outcome

/-- The `SleeperAPIError` values `_make_request` can raise, keyed by the
raise site: the timeout-exhaustion raise, the RequestException-exhaustion
raise (carrying the cause message), and the fall-off-the-loop raise at
the end of the function.  Each carries `retries + 1`, the attempt count
interpolated into the message. -/
inductive SleeperAPIError where
  | timeoutExhausted (attempts : Nat) : SleeperAPIError
  | requestFailed (attempts : Nat) (cause : String) : SleeperAPIError
  | loopExhausted (attempts : Nat) : SleeperAPIError
deriving DecidableEq

/-- The message `requests` attaches to the HTTPError that
`response.raise_for_status()` raises for a status in [400, 600). -/
def httpErrorMessage (status : Nat) : String :=
  "HTTP error " ++ toString status

/-- Observable behaviour of one `_make_request` call: the returned
payload or raised error, the number of transport calls made, and the
sequence of `time.sleep` durations in order. -/
structure RunResult where
  result : Except SleeperAPIError Json
  calls : Nat
  sleeps : List Nat

/-- The body of the `for attempt in range(retries + 1)` loop of
`_make_request`, as a recursion on the remaining iteration count
(`fuel = retries + 1 - attempt`).  Branches, in source order:
status 200 returns the body; status 429 sleeps the Retry-After hint
(default 60) and continues — note `continue` advances the `for` loop,
so the 429 consumes an iteration; any other status in [400, 600) makes
`raise_for_status` raise an HTTPError, which — being a subclass of
`RequestException` — is caught by the second handler and retried with
exponential backoff while `attempt < retries`; a status outside
[400, 600) raises nothing and the loop simply advances; `Timeout` and
other `RequestException`s back off and retry while `attempt < retries`
and otherwise raise.  Falling off the loop raises the final error. -/
def makeRequestGo (transport : Nat → Outcome) (retries : Nat) :
    Nat → Nat → RunResult
  | 0, _ => ⟨.error (.loopExhausted (retries + 1)), 0, []⟩
  | fuel + 1, attempt =>
    match transport attempt with
    | .http status retryAfter body =>
      if status = 200 then
        ⟨.ok body, 1, []⟩
      else if status = 429 then
        let wait := retryAfter.getD 60
        let r := makeRequestGo transport retries fuel (attempt + 1)
        ⟨r.result, r.calls + 1, wait :: r.sleeps⟩
      else if 400 ≤ status ∧ status < 600 then
        if attempt < retries then
          let r := makeRequestGo transport retries fuel (attempt + 1)
          ⟨r.result, r.calls + 1, 2 ^ attempt :: r.sleeps⟩
        else
          ⟨.error (.requestFailed (retries + 1) (httpErrorMessage status)), 1, []⟩
      else
        let r := makeRequestGo transport retries fuel (attempt + 1)
        ⟨r.result, r.calls + 1, r.sleeps⟩
    | .timeout =>
      if attempt < retries then
        let r := makeRequestGo transport retries fuel (attempt + 1)
        ⟨r.result, r.calls + 1, 2 ^ attempt :: r.sleeps⟩
      else
        ⟨.error (.timeoutExhausted (retries + 1)), 1, []⟩
    | .netError msg =>
      if attempt < retries then
        let r := makeRequestGo transport retries fuel (attempt + 1)
        ⟨r.result, r.calls + 1, 2 ^ attempt :: r.sleeps⟩
      else
        ⟨.error (.requestFailed (retries + 1) msg), 1, []⟩

/-- `SleeperAPI._make_request` with an explicit retry budget: run the
loop from attempt 0 with `retries + 1` iterations available. -/
def makeRequest (transport : Nat → Outcome) (retries : Nat) : RunResult :=
  makeRequestGo transport retries (retries + 1) 0

/-- A transport outcome the spec calls transient: a timeout or a
non-HTTP network failure. -/
def transientOutcome (o : Outcome) : Prop :=
  o = .timeout ∨ ∃ msg, o = .netError msg

/-- Concrete transport: one 429 response (no Retry-After header), then
200 responses with payload "payload". -/
def t429then200 : Nat → Outcome :=
  fun n => if n = 0 then .http 429 none .null else .http 200 none (.str "payload")

/-- Concrete transport: one 429 response, then a timeout, then 200
responses with payload "payload". -/
def t429timeout200 : Nat → Outcome :=
  fun n => if n = 0 then .http 429 none .null
           else if n = 1 then .timeout
           else .http 200 none (.str "payload")

/-- An outcome handled by the backoff-and-retry handlers of the loop:
a Timeout, another RequestException, or an HTTP status in [400, 600)
other than 200 and 429, whose HTTPError from `raise_for_status` is
caught by the RequestException handler. -/
def retryCaughtOutcome (o : Outcome) : Prop :=
  o = .timeout ∨ (∃ msg, o = .netError msg) ∨
    (∃ st ra b, o = .http st ra b ∧ 400 ≤ st ∧ st < 600 ∧ st ≠ 200 ∧ st ≠ 429)

/-- One loop iteration on a retried failure while `attempt < retries`:
sleep `2 ^ attempt` and move to the next attempt. -/
theorem makeRequestGo_fail_step
    (t : Nat → Outcome) (retries fuel attempt : Nat)
    (h : retryCaughtOutcome (t attempt)) (hlt : attempt < retries) :
    makeRequestGo t retries (fuel + 1) attempt =
      ⟨(makeRequestGo t retries fuel (attempt + 1)).result,
       (makeRequestGo t retries fuel (attempt + 1)).calls + 1,
       2 ^ attempt :: (makeRequestGo t retries fuel (attempt + 1)).sleeps⟩ := by
  rcases h with h | ⟨msg, h⟩ | ⟨st, ra, b, h, h4, h6, h200, h429⟩
  · simp [makeRequestGo, h, hlt]
  · simp [makeRequestGo, h, hlt]
  · simp [makeRequestGo, h, hlt, h4, h6, h200, h429]

/-- The final loop iteration (`attempt = retries`) on a retried-failure
outcome raises immediately, with one transport call and no sleep. -/
theorem makeRequestGo_fail_last
    (t : Nat → Outcome) (retries fuel attempt : Nat)
    (hge : ¬ attempt < retries) :
    (t attempt = .timeout →
      makeRequestGo t retries (fuel + 1) attempt =
        ⟨.error (.timeoutExhausted (retries + 1)), 1, []⟩) ∧
    (∀ msg, t attempt = .netError msg →
      makeRequestGo t retries (fuel + 1) attempt =
        ⟨.error (.requestFailed (retries + 1) msg), 1, []⟩) ∧
    (∀ st ra b, t attempt = .http st ra b → 400 ≤ st → st < 600 →
      st ≠ 200 → st ≠ 429 →
      makeRequestGo t retries (fuel + 1) attempt =
        ⟨.error (.requestFailed (retries + 1) (httpErrorMessage st)), 1, []⟩) := by
  refine ⟨fun h => ?_, fun msg h => ?_, fun st ra b h h4 h6 h200 h429 => ?_⟩
  · simp [makeRequestGo, h, hge]
  · simp [makeRequestGo, h, hge]
  · simp [makeRequestGo, h, hge, h4, h6, h200, h429]

/-- A constant transport whose every call fails the same way exhausts
the loop: every iteration backs off `2 ^ attempt`, and the final attempt
raises the branch's exhaustion error. -/
theorem makeRequestGo_constFail
    (t : Nat → Outcome) (retries : Nat) (o : Outcome) (e : SleeperAPIError)
    (ht : ∀ n, t n = o)
    (he : (o = .timeout ∧ e = .timeoutExhausted (retries + 1)) ∨
          (∃ msg, o = .netError msg ∧ e = .requestFailed (retries + 1) msg) ∨
          (∃ st ra b, o = .http st ra b ∧ 400 ≤ st ∧ st < 600 ∧ st ≠ 200 ∧
            st ≠ 429 ∧ e = .requestFailed (retries + 1) (httpErrorMessage st))) :
    ∀ fuel attempt, attempt + fuel = retries + 1 → 1 ≤ fuel →
      makeRequestGo t retries fuel attempt =
        ⟨.error e, fuel, (List.range' attempt (fuel - 1)).map (2 ^ ·)⟩ := by
  intro fuel
  induction fuel with
  | zero => intro attempt _ h1; omega
  | succ fuel ih =>
    intro attempt hsum _
    by_cases hlt : attempt < retries
    · have hfuel : 1 ≤ fuel := by omega
      have hrec := ih (attempt + 1) (by omega) hfuel
      have hcaught : retryCaughtOutcome (t attempt) := by
        rcases he with ⟨ho, _⟩ | ⟨msg, ho, _⟩ | ⟨st, ra, b, ho, h4, h6, h200, h429, _⟩
        · exact Or.inl (by rw [ht, ho])
        · exact Or.inr (Or.inl ⟨msg, by rw [ht, ho]⟩)
        · exact Or.inr (Or.inr ⟨st, ra, b, by rw [ht, ho], h4, h6, h200, h429⟩)
      rw [makeRequestGo_fail_step t retries fuel attempt hcaught hlt, hrec]
      obtain ⟨f, rfl⟩ : ∃ f, fuel = f + 1 := ⟨fuel - 1, by omega⟩
      simp [List.range'_succ]
    · have hf : fuel = 0 := by omega
      subst hf
      have hlast := makeRequestGo_fail_last t retries 0 attempt hlt
      rcases he with ⟨rfl, rfl⟩ | ⟨msg, rfl, rfl⟩ |
        ⟨st, ra, b, rfl, h4, h6, h200, h429, rfl⟩
      · rw [hlast.1 (ht attempt)]; simp
      · rw [hlast.2.1 msg (ht attempt)]; simp
      · rw [hlast.2.2 st ra b (ht attempt) h4 h6 h200 h429]; simp

/-- `_make_request` against a constant failing transport: `retries + 1`
transport calls, backoff sleeps `2 ^ 0 .. 2 ^ (retries - 1)`, and the
branch's exhaustion error. -/
theorem makeRequest_constFail
    (t : Nat → Outcome) (retries : Nat) (o : Outcome) (e : SleeperAPIError)
    (ht : ∀ n, t n = o)
    (he : (o = .timeout ∧ e = .timeoutExhausted (retries + 1)) ∨
          (∃ msg, o = .netError msg ∧ e = .requestFailed (retries + 1) msg) ∨
          (∃ st ra b, o = .http st ra b ∧ 400 ≤ st ∧ st < 600 ∧ st ≠ 200 ∧
            st ≠ 429 ∧ e = .requestFailed (retries + 1) (httpErrorMessage st))) :
    makeRequest t retries =
      ⟨.error e, retries + 1, (List.range retries).map (2 ^ ·)⟩ := by
  have h := makeRequestGo_constFail t retries o e ht he (retries + 1) 0
    (by omega) (by omega)
  rw [makeRequest, h, List.range_eq_range']
  simp

/-- A transient outcome (timeout or network failure) is among the
outcomes the retry handlers catch. -/
theorem transientOutcome.retryCaught {o : Outcome}
    (h : transientOutcome o) : retryCaughtOutcome o := by
  rcases h with h | ⟨msg, h⟩
  · exact Or.inl h
  · exact Or.inr (Or.inl ⟨msg, h⟩)

/-- Transport that fails transiently twice (two timeouts) and then
returns 200 with payload "ok". -/
def tFailTwice : Nat → Outcome :=
  fun n => if n ≤ 1 then .timeout else .http 200 none (.str "ok")

/-- C1: the claim says an HTTP 429 must not consume a retry slot and
that one 429 followed by a 200 yields the 200 payload with the full
retry budget intact.  The code disagrees: the 429 branch issues
`continue` inside `for attempt in range(retries + 1)`, which advances
the loop and consumes the iteration.  Evaluating the embedded loop:
with `max_retries = 0`, a 429 followed by 200s raises the final
"Request failed after 1 attempts" error and never obtains the payload
(first and fourth conjuncts); with `max_retries = 1` the 200 is only
reached because the budget covers the extra attempt (second conjunct);
and with `max_retries = 1` a 429 followed by a timeout raises
immediately, showing the timeout-retry budget was reduced by the 429
(third conjunct). -/
theorem c1_rate_limited_attempt_consumes_retry_slot :
    makeRequest t429then200 0 = ⟨.error (.loopExhausted 1), 1, [60]⟩ ∧
    makeRequest t429then200 1 = ⟨.ok (.str "payload"), 2, [60]⟩ ∧
    makeRequest t429timeout200 1 = ⟨.error (.timeoutExhausted 2), 2, [60]⟩ ∧
    ∀ p : Json, (makeRequest t429then200 0).result ≠ .ok p :=
  ⟨rfl, rfl, rfl, fun _ h => nomatch h⟩

/-- C2, counterexample: the claim says a non-200/non-429 HTTP response
fails immediately with no retry, the transport being invoked exactly
once.  In the code `response.raise_for_status()` raises an HTTPError,
which is a subclass of RequestException and is therefore caught by the
retry handler: a constant-404 transport with `max_retries = 2` is
invoked 3 times, not once. -/
theorem c2_counterexample_http_error_is_retried :
    makeRequest (fun _ => .http 404 none .null) 2 =
      ⟨.error (.requestFailed 3 (httpErrorMessage 404)), 3, [1, 2]⟩ ∧
    (makeRequest (fun _ => .http 404 none .null) 2).calls ≠ 1 :=
  ⟨rfl, by decide⟩

/-- C2, amended: an HTTP response with status in [400, 600) other than
429 raises an HTTPError that the RequestException handler catches and
retries with exponential backoff `2 ^ attempt`, exactly like a transient
failure; the call fails only after exhausting `max_retries`, with the
transport invoked `retries + 1` times. -/
theorem c2_amended_http_error_retried_until_exhaustion :
    ∀ retries st ra b (t : Nat → Outcome), 400 ≤ st → st < 600 → st ≠ 429 →
      (∀ n, t n = Outcome.http st ra b) →
      makeRequest t retries =
        ⟨.error (.requestFailed (retries + 1) (httpErrorMessage st)),
         retries + 1, (List.range retries).map (2 ^ ·)⟩ := by
  intro retries st ra b t h4 h6 h429 ht
  exact makeRequest_constFail t retries (.http st ra b) _ ht
    (Or.inr (Or.inr ⟨st, ra, b, rfl, h4, h6, by omega, h429, rfl⟩))

/-- Witness for the amended C2 at status 404 and `max_retries = 2`. -/
theorem c2_amended_witness :
    400 ≤ 404 ∧ 404 < 600 ∧ 404 ≠ 429 ∧
    makeRequest (fun _ => Outcome.http 404 none .null) 2 =
      ⟨.error (.requestFailed 3 (httpErrorMessage 404)), 3, [1, 2]⟩ :=
  ⟨by decide, by decide, by decide,
   c2_amended_http_error_retried_until_exhaustion 2 404 none .null _
     (by decide) (by decide) (by decide) (fun _ => rfl)⟩

/-- C3: timeouts and transient network failures are retried up to
`max_retries` additional times with backoff `2 ^ attempt` (attempt
starting at 0) between attempts.  First conjunct: with `max_retries ≥ 2`
and a transport failing transiently twice then returning 200, the call
returns the payload after exactly 3 transport calls, having slept 1 and
2 seconds.  Second and third conjuncts: when every call times out
(resp. fails with a network error), all retries are exhausted, the
transport is invoked `retries + 1` times, the sleeps are
`2 ^ 0 .. 2 ^ (retries - 1)`, and the call fails with the exhaustion
error wrapping the last cause. -/
theorem c3_backoff_retry_and_exhaustion :
    (∀ retries (t : Nat → Outcome) ra p, 2 ≤ retries →
      transientOutcome (t 0) → transientOutcome (t 1) →
      t 2 = Outcome.http 200 ra p →
      makeRequest t retries = ⟨.ok p, 3, [1, 2]⟩) ∧
    (∀ retries (t : Nat → Outcome), (∀ n, t n = Outcome.timeout) →
      makeRequest t retries =
        ⟨.error (.timeoutExhausted (retries + 1)), retries + 1,
         (List.range retries).map (2 ^ ·)⟩) ∧
    (∀ retries (t : Nat → Outcome) msg, (∀ n, t n = Outcome.netError msg) →
      makeRequest t retries =
        ⟨.error (.requestFailed (retries + 1) msg), retries + 1,
         (List.range retries).map (2 ^ ·)⟩) := by
  refine ⟨?_, ?_, ?_⟩
  · intro retries t ra p hr h0 h1 h2
    obtain ⟨k, rfl⟩ : ∃ k, retries = k + 2 := ⟨retries - 2, by omega⟩
    have step0 := makeRequestGo_fail_step t (k + 2) (k + 2) 0
      h0.retryCaught (by omega)
    have step1 : makeRequestGo t (k + 2) (k + 2) 1 =
        ⟨(makeRequestGo t (k + 2) (k + 1) 2).result,
         (makeRequestGo t (k + 2) (k + 1) 2).calls + 1,
         2 ^ 1 :: (makeRequestGo t (k + 2) (k + 1) 2).sleeps⟩ :=
      makeRequestGo_fail_step t (k + 2) (k + 1) 1 h1.retryCaught (by omega)
    have last2 : makeRequestGo t (k + 2) (k + 1) 2 = ⟨.ok p, 1, []⟩ := by
      simp [makeRequestGo, h2]
    show makeRequestGo t (k + 2) (k + 2 + 1) 0 = ⟨.ok p, 3, [1, 2]⟩
    rw [step0, step1, last2]
    simp
  · intro retries t hT
    exact makeRequest_constFail t retries .timeout _ hT (Or.inl ⟨rfl, rfl⟩)
  · intro retries t msg hT
    exact makeRequest_constFail t retries (.netError msg) _ hT
      (Or.inr (Or.inl ⟨msg, rfl, rfl⟩))

/-- Witness for C3: the fail-twice-then-succeed transport at
`max_retries = 2`, a constant-timeout transport at `max_retries = 3`,
and a constant network failure at `max_retries = 1`. -/
theorem c3_witness :
    (2 ≤ 2 ∧ transientOutcome (tFailTwice 0) ∧
      transientOutcome (tFailTwice 1) ∧
      tFailTwice 2 = Outcome.http 200 none (.str "ok") ∧
      makeRequest tFailTwice 2 = ⟨.ok (.str "ok"), 3, [1, 2]⟩) ∧
    makeRequest (fun _ => Outcome.timeout) 3 =
      ⟨.error (.timeoutExhausted 4), 4, [1, 2, 4]⟩ ∧
    makeRequest (fun _ => Outcome.netError "conn reset") 1 =
      ⟨.error (.requestFailed 2 "conn reset"), 2, [1]⟩ := by
  refine ⟨⟨by omega, Or.inl rfl, Or.inl rfl, rfl, ?_⟩, ?_, ?_⟩
  · exact c3_backoff_retry_and_exhaustion.1 2 tFailTwice none (.str "ok")
      (by omega) (Or.inl rfl) (Or.inl rfl) rfl
  · exact c3_backoff_retry_and_exhaustion.2.1 3 _ (fun _ => rfl)
  · exact c3_backoff_retry_and_exhaustion.2.2 1 _ "conn reset" (fun _ => rfl)

/-! ## The on-disk TTL cache and the cache-first getters

The cache directory is modelled as an association list from cache key
to (payload, file modification time); wall-clock times are rationals in
seconds.  `AppConfig` carries the fields the gateway reads. -/

/-- The configuration fields `SleeperAPI` reads (src/utils/config.py
defaults: cache_enabled = True, cache_duration_hours = 24,
max_retries = 3). -/
structure AppConfig where
  cache_enabled : Bool
  cache_duration_hours : ℚ
  max_retries : Nat

/-- The cache directory: one entry per key, holding the stored JSON
payload and the file's modification time in seconds. -/
abbrev CacheStore := List (String × Json × ℚ)

/-- Look up the cache file for a key (None models a missing file). -/
def lookupStore (store : CacheStore) (key : String) : Option (Json × ℚ) :=
  (store.find? (fun e => e.1 == key)).map (fun e => e.2)

/-- `SleeperAPI._is_cache_valid`: false if the file does not exist,
false if caching is disabled, else the age in hours
`(time.time() - st_mtime) / 3600` must be strictly below
`cache_duration_hours`. -/
def is_cache_valid (cfg : AppConfig) (now : ℚ)
    (entry : Option (Json × ℚ)) : Bool :=
  match entry with
  | none => false
  | some e =>
    if !cfg.cache_enabled then false
    else decide ((now - e.2) / 3600 < cfg.cache_duration_hours)

/-- `SleeperAPI._load_cache`: None when caching is disabled or the
entry is invalid, else the stored payload (the read itself is modelled
as always succeeding). -/
def load_cache (cfg : AppConfig) (now : ℚ) (store : CacheStore)
    (key : String) : Option Json :=
  if !cfg.cache_enabled then none
  else
    let entry := lookupStore store key
    if is_cache_valid cfg now entry then entry.map (fun e => e.1) else none

/-- `SleeperAPI._save_cache`: no-op when caching is disabled, else
overwrite the entry for the key with the new payload, stamped now. -/
def save_cache (cfg : AppConfig) (now : ℚ) (store : CacheStore)
    (key : String) (data : Json) : CacheStore :=
  if !cfg.cache_enabled then store
  else (key, data, now) :: store.filter (fun e => e.1 != key)

/-- The network half of every getter: call `_make_request`, and on
success write through to the cache.  Returns the result, the number of
transport calls, and the updated store. -/
def fetchViaNetwork (cfg : AppConfig) (now : ℚ) (store : CacheStore)
    (key : String) (transport : Nat → Outcome) :
    Except SleeperAPIError Json × Nat × CacheStore :=
  let r := makeRequest transport cfg.max_retries
  match r.result with
  | .ok d => (.ok d, r.calls, save_cache cfg now store key d)
  | .error e => (.error e, r.calls, store)

/-- The shared body of every public getter:
`cached = self._load_cache(cache_key); if cached: return cached` —
note the Python truthiness test, under which a falsy cached payload
does not count as a hit — else fetch over the network. -/
def fetchCached (cfg : AppConfig) (now : ℚ) (store : CacheStore)
    (key : String) (transport : Nat → Outcome) :
    Except SleeperAPIError Json × Nat × CacheStore :=
  match load_cache cfg now store key with
  | some c =>
    if pyTruthy c then (.ok c, 0, store)
    else fetchViaNetwork cfg now store key transport
  | none => fetchViaNetwork cfg now store key transport

/-- `SleeperAPI.get_user`: cache key `user_{username}`; on
SleeperAPIError returns None. -/
def get_user (cfg : AppConfig) (now : ℚ) (store : CacheStore)
    (transport : Nat → Outcome) (username : String) :
    Option Json × Nat × CacheStore :=
  match fetchCached cfg now store ("user_" ++ username) transport with
  | (.ok d, n, st) => (some d, n, st)
  | (.error _, n, st) => (none, n, st)

/-- `SleeperAPI.get_user_leagues`: cache key
`leagues_{user_id}_{season}`; on SleeperAPIError returns the empty
list. -/
def get_user_leagues (cfg : AppConfig) (now : ℚ) (store : CacheStore)
    (transport : Nat → Outcome) (user_id season : String) :
    Json × Nat × CacheStore :=
  match fetchCached cfg now store
      ("leagues_" ++ user_id ++ "_" ++ season) transport with
  | (.ok d, n, st) => (d, n, st)
  | (.error _, n, st) => (Json.arr [], n, st)

/-- `SleeperAPI.get_league`: cache key `league_{league_id}`; on
SleeperAPIError returns None. -/
def get_league (cfg : AppConfig) (now : ℚ) (store : CacheStore)
    (transport : Nat → Outcome) (league_id : String) :
    Option Json × Nat × CacheStore :=
  match fetchCached cfg now store ("league_" ++ league_id) transport with
  | (.ok d, n, st) => (some d, n, st)
  | (.error _, n, st) => (none, n, st)

/-- `SleeperAPI.get_rosters`: cache key `rosters_{league_id}`; on
SleeperAPIError returns the empty list. -/
def get_rosters (cfg : AppConfig) (now : ℚ) (store : CacheStore)
    (transport : Nat → Outcome) (league_id : String) :
    Json × Nat × CacheStore :=
  match fetchCached cfg now store ("rosters_" ++ league_id) transport with
  | (.ok d, n, st) => (d, n, st)
  | (.error _, n, st) => (Json.arr [], n, st)

/-- `SleeperAPI.get_users`: cache key `users_{league_id}`; on
SleeperAPIError returns the empty list. -/
def get_users (cfg : AppConfig) (now : ℚ) (store : CacheStore)
    (transport : Nat → Outcome) (league_id : String) :
    Json × Nat × CacheStore :=
  match fetchCached cfg now store ("users_" ++ league_id) transport with
  | (.ok d, n, st) => (d, n, st)
  | (.error _, n, st) => (Json.arr [], n, st)

/-- `SleeperAPI.get_matchups`: cache key
`matchups_{league_id}_week_{week}`; on SleeperAPIError returns the
empty list. -/
def get_matchups (cfg : AppConfig) (now : ℚ) (store : CacheStore)
    (transport : Nat → Outcome) (league_id : String) (week : Nat) :
    Json × Nat × CacheStore :=
  match fetchCached cfg now store
      ("matchups_" ++ league_id ++ "_week_" ++ toString week) transport with
  | (.ok d, n, st) => (d, n, st)
  | (.error _, n, st) => (Json.arr [], n, st)

/-- `SleeperAPI.get_players`: cache key `players_nfl`; on
SleeperAPIError returns the empty dict. -/
def get_players (cfg : AppConfig) (now : ℚ) (store : CacheStore)
    (transport : Nat → Outcome) :
    Json × Nat × CacheStore :=
  match fetchCached cfg now store "players_nfl" transport with
  | (.ok d, n, st) => (d, n, st)
  | (.error _, n, st) => (Json.obj [], n, st)

/-- `SleeperAPI.get_trending_players`: cache key
`trending_{lookback_hours}h_{limit}`; on SleeperAPIError returns the
empty list. -/
def get_trending_players (cfg : AppConfig) (now : ℚ) (store : CacheStore)
    (transport : Nat → Outcome) (lookback_hours limit : Nat) :
    Json × Nat × CacheStore :=
  match fetchCached cfg now store
      ("trending_" ++ toString lookback_hours ++ "h_" ++ toString limit)
      transport with
  | (.ok d, n, st) => (d, n, st)
  | (.error _, n, st) => (Json.arr [], n, st)

/-- With an empty cache directory every cache read misses. -/
theorem load_cache_empty (cfg : AppConfig) (now : ℚ) (key : String) :
    load_cache cfg now [] key = none := by
  cases h : cfg.cache_enabled <;>
    simp [load_cache, lookupStore, is_cache_valid, h]

/-- Enabled cache, TTL 1 hour, no retries. -/
def cfgC4 : AppConfig := ⟨true, 1, 0⟩

/-- A cache directory holding a fresh entry for key "k" whose payload
is the empty list — a falsy value under Python truthiness. -/
def storeC4 : CacheStore := [("k", Json.arr [], 0)]

/-- Transport that always answers 200 with payload "fresh". -/
def tFresh : Nat → Outcome := fun _ => .http 200 none (.str "fresh")

/-- A cache read with caching enabled and a valid entry returns the
stored payload. -/
theorem load_cache_eq_of_valid (cfg : AppConfig) (now : ℚ)
    (store : CacheStore) (key : String)
    (he : cfg.cache_enabled = true)
    (hv : is_cache_valid cfg now (lookupStore store key) = true) :
    load_cache cfg now store key =
      (lookupStore store key).map (fun e => e.1) := by
  simp [load_cache, he, hv]

/-- C4, counterexample: the claim says that with caching enabled and a
fresh entry present, a fetch for the key returns the cached payload
with no network call.  The getters test the cached value with Python
truthiness (`if cached:`), so a fresh cached empty list is treated as
a miss: the cache read returns the entry and the entry is valid, yet
the fetch hits the network (1 transport call) and returns the network
payload instead of the cached one. -/
theorem c4_counterexample_falsy_cached_payload_refetched :
    load_cache cfgC4 0 storeC4 "k" = some (Json.arr []) ∧
    is_cache_valid cfgC4 0 (lookupStore storeC4 "k") = true ∧
    fetchCached cfgC4 0 storeC4 "k" tFresh =
      (.ok (.str "fresh"), 1, [("k", Json.str "fresh", 0)]) ∧
    (fetchCached cfgC4 0 storeC4 "k" tFresh).2.1 ≠ 0 := by
  have hval : is_cache_valid cfgC4 0 (lookupStore storeC4 "k") = true := by
    norm_num [is_cache_valid, lookupStore, storeC4, cfgC4]
  have hload : load_cache cfgC4 0 storeC4 "k" = some (Json.arr []) := by
    rw [load_cache_eq_of_valid _ _ _ _ rfl hval]; rfl
  have hnet : fetchViaNetwork cfgC4 0 storeC4 "k" tFresh =
      (.ok (.str "fresh"), 1, [("k", Json.str "fresh", 0)]) := rfl
  have hfc : fetchCached cfgC4 0 storeC4 "k" tFresh =
      (.ok (.str "fresh"), 1, [("k", Json.str "fresh", 0)]) := by
    unfold fetchCached
    rw [hload]
    simpa [pyTruthy] using hnet
  exact ⟨hload, hval, hfc, by rw [hfc]; decide⟩

/-- C4, amended: (a) with caching enabled, a fresh cache entry whose
payload is truthy is returned as-is with zero network calls; a cache
read returns nothing when (b) caching is disabled, (c) the entry is
absent, or (d) the entry's age in hours meets or exceeds the TTL.
Falsy cached payloads (None, 0, "", empty list, empty dict) are the
exception to (a): they are treated as misses and refetched. -/
theorem c4_amended_cache_first_and_read_misses :
    (∀ (cfg : AppConfig) (now : ℚ) (store : CacheStore) key transport c,
      load_cache cfg now store key = some c → pyTruthy c = true →
      fetchCached cfg now store key transport = (.ok c, 0, store)) ∧
    (∀ (cfg : AppConfig) (now : ℚ) (store : CacheStore) key,
      cfg.cache_enabled = false → load_cache cfg now store key = none) ∧
    (∀ (cfg : AppConfig) (now : ℚ) (store : CacheStore) key,
      lookupStore store key = none → load_cache cfg now store key = none) ∧
    (∀ (cfg : AppConfig) (now : ℚ) (store : CacheStore) key p mtime,
      lookupStore store key = some (p, mtime) →
      cfg.cache_duration_hours ≤ (now - mtime) / 3600 →
      load_cache cfg now store key = none) := by
  refine ⟨?_, ?_, ?_, ?_⟩
  · intro cfg now store key transport c hl ht
    unfold fetchCached
    rw [hl]
    simp [ht]
  · intro cfg now store key h
    simp [load_cache, h]
  · intro cfg now store key h
    cases he : cfg.cache_enabled <;> simp [load_cache, is_cache_valid, h, he]
  · intro cfg now store key p mtime hlk hle
    have hnlt : ¬((now - mtime) / 3600 < cfg.cache_duration_hours) :=
      not_lt.mpr hle
    cases he : cfg.cache_enabled <;>
      simp [load_cache, is_cache_valid, hlk, he, hnlt]

/-- Witness for the amended C4: a truthy fresh entry is served from the
cache with no network call; a disabled cache, a missing entry, and an
entry exactly one TTL old all read as nothing. -/
theorem c4_amended_witness :
    (load_cache cfgC4 0 [("k", Json.str "v", 0)] "k" = some (Json.str "v") ∧
      pyTruthy (Json.str "v") = true ∧
      fetchCached cfgC4 0 [("k", Json.str "v", 0)] "k" tFresh =
        (.ok (Json.str "v"), 0, [("k", Json.str "v", 0)])) ∧
    (AppConfig.cache_enabled ⟨false, 1, 0⟩ = false ∧
      load_cache ⟨false, 1, 0⟩ 0 [("k", Json.str "v", 0)] "k" = none) ∧
    (lookupStore [] "k" = none ∧ load_cache cfgC4 0 [] "k" = none) ∧
    (lookupStore [("k", Json.str "v", 0)] "k" = some (Json.str "v", 0) ∧
      cfgC4.cache_duration_hours ≤ ((3600 : ℚ) - 0) / 3600 ∧
      load_cache cfgC4 3600 [("k", Json.str "v", 0)] "k" = none) := by
  have hval : is_cache_valid cfgC4 0
      (lookupStore [("k", Json.str "v", 0)] "k") = true := by
    norm_num [is_cache_valid, lookupStore, cfgC4]
  have hload : load_cache cfgC4 0 [("k", Json.str "v", 0)] "k" =
      some (Json.str "v") := by
    rw [load_cache_eq_of_valid _ _ _ _ rfl hval]; rfl
  have hle : cfgC4.cache_duration_hours ≤ ((3600 : ℚ) - 0) / 3600 := by
    norm_num [cfgC4]
  refine ⟨⟨hload, rfl, ?_⟩, ⟨rfl, ?_⟩, ⟨rfl, ?_⟩, ⟨rfl, hle, ?_⟩⟩
  · exact c4_amended_cache_first_and_read_misses.1 cfgC4 0
      [("k", Json.str "v", 0)] "k" tFresh (Json.str "v") hload rfl
  · exact c4_amended_cache_first_and_read_misses.2.1 ⟨false, 1, 0⟩ 0
      [("k", Json.str "v", 0)] "k" rfl
  · exact c4_amended_cache_first_and_read_misses.2.2.1 cfgC4 0 [] "k" rfl
  · exact c4_amended_cache_first_and_read_misses.2.2.2 cfgC4 3600
      [("k", Json.str "v", 0)] "k" (Json.str "v") 0 rfl hle

/-- C10: every public getter is total with respect to gateway failures.
With an empty cache (so the cache misses) and a transport that times
out on every call, `_make_request` exhausts its retries and raises a
SleeperAPIError; each getter catches it and returns its neutral empty
value — None for `get_user` and `get_league`, the empty list for
`get_user_leagues`, `get_rosters`, `get_users`, `get_matchups` and
`get_trending_players`, and the empty dict for `get_players` — instead
of propagating the exception. -/
theorem c10_getters_total_on_gateway_failure :
    ∀ (cfg : AppConfig) (now : ℚ) (transport : Nat → Outcome)
      (username uid season lid : String) (week lookback limit : Nat),
      (∀ n, transport n = Outcome.timeout) →
      (get_user cfg now [] transport username).1 = none ∧
      (get_user_leagues cfg now [] transport uid season).1 = Json.arr [] ∧
      (get_league cfg now [] transport lid).1 = none ∧
      (get_rosters cfg now [] transport lid).1 = Json.arr [] ∧
      (get_users cfg now [] transport lid).1 = Json.arr [] ∧
      (get_matchups cfg now [] transport lid week).1 = Json.arr [] ∧
      (get_players cfg now [] transport).1 = Json.obj [] ∧
      (get_trending_players cfg now [] transport lookback limit).1 =
        Json.arr [] := by
  intro cfg now transport username uid season lid week lookback limit ht
  have hreq : makeRequest transport cfg.max_retries =
      ⟨.error (.timeoutExhausted (cfg.max_retries + 1)), cfg.max_retries + 1,
       (List.range cfg.max_retries).map (2 ^ ·)⟩ :=
    makeRequest_constFail transport cfg.max_retries .timeout _ ht
      (Or.inl ⟨rfl, rfl⟩)
  refine ⟨?_, ?_, ?_, ?_, ?_, ?_, ?_, ?_⟩ <;>
    simp [get_user, get_user_leagues, get_league, get_rosters, get_users,
      get_matchups, get_players, get_trending_players, fetchCached,
      load_cache_empty, fetchViaNetwork, hreq]

/-- Witness for C10 at a concrete configuration and inputs. -/
theorem c10_witness :
    (∀ n : Nat, (fun _ => Outcome.timeout) n = Outcome.timeout) ∧
    (get_user ⟨true, 24, 3⟩ 0 [] (fun _ => Outcome.timeout) "alice").1 =
      none ∧
    (get_players ⟨true, 24, 3⟩ 0 [] (fun _ => Outcome.timeout)).1 =
      Json.obj [] ∧
    (get_rosters ⟨true, 24, 3⟩ 0 [] (fun _ => Outcome.timeout) "lg").1 =
      Json.arr [] :=
  ⟨fun _ => rfl,
   (c10_getters_total_on_gateway_failure ⟨true, 24, 3⟩ 0 _ "alice" "u" "2024"
      "lg" 3 24 25 (fun _ => rfl)).1,
   (c10_getters_total_on_gateway_failure ⟨true, 24, 3⟩ 0 _ "alice" "u" "2024"
      "lg" 3 24 25 (fun _ => rfl)).2.2.2.2.2.2.1,
   (c10_getters_total_on_gateway_failure ⟨true, 24, 3⟩ 0 _ "alice" "u" "2024"
      "lg" 3 24 25 (fun _ => rfl)).2.2.2.1⟩

/-! ## The roster/matchup resolution routine (src/core/analyzer.py)

The analyzer handles rosters and matchups as raw Python dicts and only
reads a fixed set of keys via `.get`.  Each record type is modelled as
a structure of Option fields — None for an absent key — restricted to
the keys the code reads; Python dict truthiness (`if not d:`, nonempty
iff some key present) is modelled over those keys. -/

/-- A roster dict as the analyzer reads it: keys `roster_id`,
`owner_id` and `players` (an ordered list of player-id strings). -/
structure RosterRec where
  roster_id : Option String
  owner_id : Option String
  players : Option (List String)
deriving DecidableEq

/-- A matchup dict as `_find_opponent_roster` reads it: keys
`matchup_id` and `roster_id`. -/
structure MatchupRec where
  matchup_id : Option String
  roster_id : Option String
deriving DecidableEq

/-- Python truthiness of a roster dict over its modelled keys. -/
def truthyRoster (r : RosterRec) : Bool :=
  r.roster_id.isSome || r.owner_id.isSome || r.players.isSome

/-- Python truthiness of a matchup dict over its modelled keys. -/
def truthyMatchup (m : MatchupRec) : Bool :=
  m.matchup_id.isSome || m.roster_id.isSome

/-- Python truthiness of an Optional[str]: falsy when None or empty. -/
def truthyOptStr : Option String → Bool
  | none => false
  | some s => s != ""

/-- The per-player dict of the player catalog, restricted to the keys
the analyzer formats. -/
structure PlayerData where
  first_name : Option String
  last_name : Option String
  position : Option String
  team : Option String
  status : Option String
  injury_status : Option String
  fantasy_positions : Option (List String)
deriving DecidableEq

/-- The player catalog (`all_players`): a dict from player id to
player data, as an association list with unique keys. -/
abbrev Catalog := List (String × PlayerData)

/-- Python `all_players[player_id]` lookup (None when absent, which
also decides the `player_id in all_players` membership test). -/
def catalogFind (c : Catalog) (pid : String) : Option PlayerData :=
  (c.find? (fun e => e.1 == pid)).map (fun e => e.2)

/-- One entry of the relevant-players projection built by
`_get_relevant_players`. -/
structure PlayerInfo where
  id : String
  name : String
  position : String
  team : String
  status : String
  injury_status : String
  fantasy_positions : List String
deriving DecidableEq

/-- The dict `_get_relevant_players` appends for a catalog-known
player id. -/
def mkRelevantInfo (pid : String) (p : PlayerData) : PlayerInfo :=
  { id := pid
    name := ((p.first_name.getD "") ++ " " ++ (p.last_name.getD "")).trim
    position := p.position.getD ""
    team := p.team.getD ""
    status := p.status.getD "Active"
    injury_status := p.injury_status.getD ""
    fantasy_positions := p.fantasy_positions.getD [] }

/-- `LineupAnalyzer._get_relevant_players`: walk the roster's player
ids in order, keep those present in the catalog (unknown ids dropped
silently), format each, and truncate to the first 30. -/
def get_relevant_players (roster : RosterRec) (all_players : Catalog) :
    List PlayerInfo :=
  ((roster.players.getD []).filterMap
    (fun pid => (catalogFind all_players pid).map (mkRelevantInfo pid))).take 30

/-- One entry of the formatted roster built by `_format_roster_for_ai`. -/
structure FormattedPlayer where
  id : String
  name : String
  position : String
  team : String
  status : String
deriving DecidableEq

/-- The dict `_format_roster_for_ai` returns for a truthy roster. -/
structure FormattedRoster where
  roster_id : String
  players : List FormattedPlayer
deriving DecidableEq

/-- The dict `_format_roster_for_ai` appends for a catalog-known
player id. -/
def mkFormattedPlayer (pid : String) (p : PlayerData) : FormattedPlayer :=
  { id := pid
    name := ((p.first_name.getD "") ++ " " ++ (p.last_name.getD "")).trim
    position := p.position.getD ""
    team := p.team.getD ""
    status := p.status.getD "Active" }

/-- `LineupAnalyzer._format_roster_for_ai`: the empty dict (None here)
for a falsy roster, else roster_id plus the catalog-joined players. -/
def format_roster_for_ai (roster : Option RosterRec)
    (all_players : Catalog) : Option FormattedRoster :=
  match roster with
  | none => none
  | some r =>
    if !truthyRoster r then none
    else some
      { roster_id := r.roster_id.getD ""
        players := (r.players.getD []).filterMap
          (fun pid => (catalogFind all_players pid).map (mkFormattedPlayer pid)) }

/-- `LineupAnalyzer._find_opponent_roster`, in source order: find the
first matchup whose roster_id equals the user roster's (Python `==`
over Optional values, so None == None matches); a missing or falsy
user matchup yields None; then find the first matchup sharing that
matchup_id with a different roster_id — the group size is never
examined; a missing or falsy opponent roster_id yields None; finally
resolve the opponent roster_id against the rosters, None when absent.
The function never raises: every branch returns a value (the source
additionally wraps the body in a blanket try/except returning None). -/
def find_opponent_roster (user_roster : RosterRec)
    (rosters : List RosterRec) (matchups : List MatchupRec) :
    Option RosterRec :=
  match matchups.find? (fun m => m.roster_id == user_roster.roster_id) with
  | none => none
  | some user_matchup =>
    if !truthyMatchup user_matchup then none
    else
      match matchups.find? (fun m =>
          m.matchup_id == user_matchup.matchup_id &&
          m.roster_id != user_roster.roster_id) with
      | none => none
      | some opp =>
        if !truthyOptStr opp.roster_id then none
        else rosters.find? (fun r => r.roster_id == opp.roster_id)

/-- The `league_settings` sub-dict of the analysis context:
`league.get('settings', {}).get(...)` for the three keys. -/
structure LeagueSettings where
  num_teams : Option Json
  league_type : Option Json
  playoff_teams : Option Json

/-- The context dict `_build_analysis_context` assembles.  The results
of the external FantasyScoringService collaborator
(`get_scoring_settings`, `get_player_projections`) are threaded in as
inputs and stored unchanged. -/
structure AnalysisContext where
  week : Nat
  league_name : Json
  roster : Option FormattedRoster
  opponent : Option FormattedRoster
  scoring : Json
  players : List PlayerInfo
  projections : Json
  league_settings : LeagueSettings

/-- The early-return sites of `_build_analysis_context`, in source
order: each corresponds to one `return None` with its own log
message. -/
inductive BuildError where
  | leagueMissing
  | rostersMissing
  | usersMissing
  | matchupsMissing
  | playersMissing
  | rosterNotFound
deriving DecidableEq

/-- `league.get('settings', {})` then `.get(key)` for the three
league-settings keys. -/
def mkLeagueSettings (league : Json) : LeagueSettings :=
  let settings := (jsonGet league "settings").getD (.obj [])
  { num_teams := jsonGet settings "num_teams"
    league_type := jsonGet settings "type"
    playoff_teams := jsonGet settings "playoff_teams" }

/-- `LineupAnalyzer._build_analysis_context`, purified: the five
fetched collections arrive as inputs (each getter's failure surfaces
as a falsy value, which the code checks with `if not X: return None`),
as do the two FantasyScoringService results.  The user's roster is the
first whose `owner_id` equals `user_id` (absence — or a falsy matched
dict, which cannot occur since a match has `owner_id` present — is the
"Could not find roster" failure), the opponent comes from
`_find_opponent_roster`, and the context dict is assembled. -/
def build_analysis_context (league : Json) (rosters : List RosterRec)
    (users : List Json) (matchups : List MatchupRec)
    (all_players : Catalog) (scoring projections : Json)
    (user_id : String) (week : Nat) :
    Except BuildError AnalysisContext :=
  if !pyTruthy league then .error .leagueMissing
  else if rosters.isEmpty then .error .rostersMissing
  else if users.isEmpty then .error .usersMissing
  else if matchups.isEmpty then .error .matchupsMissing
  else if all_players.isEmpty then .error .playersMissing
  else
    match rosters.find? (fun r => r.owner_id == some user_id) with
    | none => .error .rosterNotFound
    | some user_roster =>
      if !truthyRoster user_roster then .error .rosterNotFound
      else
        let opponent_roster := find_opponent_roster user_roster rosters matchups
        .ok { week := week
              league_name := (jsonGet league "name").getD (.str "Unknown League")
              roster := format_roster_for_ai (some user_roster) all_players
              opponent := format_roster_for_ai opponent_roster all_players
              scoring := scoring
              players := get_relevant_players user_roster all_players
              projections := projections
              league_settings := mkLeagueSettings league }

/-- The ids of the formatted relevant players are exactly the roster
ids found in the catalog, in order. -/
theorem map_id_filterMap (l : List String) (c : Catalog) :
    (l.filterMap
      (fun pid => (catalogFind c pid).map (mkRelevantInfo pid))).map
        (fun p => p.id) =
      l.filter (fun pid => (catalogFind c pid).isSome) := by
  induction l with
  | nil => rfl
  | cons a l ih =>
    cases h : catalogFind c a <;>
      simp [List.filterMap_cons, h, List.filter_cons, ih, mkRelevantInfo]

/-- C9: the relevant-players projection consists of exactly the
roster's player ids that are present in the catalog, in the roster's
original order, truncated to the first 30 (first conjunct); its length
never exceeds 30 (second conjunct); and a roster of 45 catalog-known
ids yields exactly 30 entries (third conjunct).  Unknown ids are
dropped by the filter without error. -/
theorem c9_relevant_players_projection :
    (∀ (r : RosterRec) (c : Catalog),
      (get_relevant_players r c).map (fun p => p.id) =
        ((r.players.getD []).filter
          (fun pid => (catalogFind c pid).isSome)).take 30) ∧
    (∀ (r : RosterRec) (c : Catalog),
      (get_relevant_players r c).length ≤ 30) ∧
    (∀ (r : RosterRec) (c : Catalog),
      (∀ pid ∈ r.players.getD [], (catalogFind c pid).isSome) →
      (r.players.getD []).length = 45 →
      (get_relevant_players r c).length = 30) := by
  refine ⟨?_, ?_, ?_⟩
  · intro r c
    rw [get_relevant_players, List.map_take, map_id_filterMap]
  · intro r c
    simp only [get_relevant_players, List.length_take]
    omega
  · intro r c hall h45
    have hmap := map_id_filterMap (r.players.getD []) c
    have hfil : (r.players.getD []).filter
        (fun pid => (catalogFind c pid).isSome) = r.players.getD [] :=
      List.filter_eq_self.mpr (fun a ha => by simpa using hall a ha)
    have hlen : ((r.players.getD []).filterMap
        (fun pid => (catalogFind c pid).map (mkRelevantInfo pid))).length
          = 45 := by
      have hl := congrArg List.length hmap
      rw [List.length_map, hfil, h45] at hl
      exact hl
    simp [get_relevant_players, List.length_take, hlen]

/-- The empty per-player dict (all keys absent). -/
def pdEmpty : PlayerData := ⟨none, none, none, none, none, none, none⟩

/-- 45 distinct player ids. -/
def ids45 : List String := (List.range 45).map (fun i => toString i)

/-- A catalog containing exactly the 45 ids. -/
def catalog45 : Catalog := ids45.map (fun pid => (pid, pdEmpty))

/-- A roster carrying the 45 catalog-known player ids. -/
def roster45 : RosterRec := ⟨some "1", some "u1", some ids45⟩

/-- Witness for C9: the 45-player roster over the 45-entry catalog
projects to exactly 30 relevant players. -/
theorem c9_witness :
    (∀ pid ∈ roster45.players.getD [], (catalogFind catalog45 pid).isSome) ∧
    (roster45.players.getD []).length = 45 ∧
    (get_relevant_players roster45 catalog45).length = 30 :=
  ⟨by decide, rfl,
   c9_relevant_players_projection.2.2 roster45 catalog45 (by decide) rfl⟩

/-- Roster with id "1" owned by "u1". -/
def rosterA : RosterRec := ⟨some "1", some "u1", none⟩

/-- Roster with id "2" owned by "u2". -/
def rosterB : RosterRec := ⟨some "2", some "u2", none⟩

/-- Roster with id "3" owned by "u3". -/
def rosterC : RosterRec := ⟨some "3", some "u3", none⟩

/-- Matchup record pairing group "m1" with roster "1". -/
def mA : MatchupRec := ⟨some "m1", some "1"⟩

/-- Matchup record pairing group "m1" with roster "2". -/
def mB : MatchupRec := ⟨some "m1", some "2"⟩

/-- Matchup record pairing group "m1" with roster "3". -/
def mC : MatchupRec := ⟨some "m1", some "3"⟩

/-- C7, counterexample: the claim says an opponent is returned only
when the user's matchup group has exactly two members.  The code never
examines the group size: with a three-member group m1 = {rosters 1, 2,
3}, resolving for roster 1 returns roster 2 (the first other member)
instead of "no opponent". -/
theorem c7_counterexample_three_member_group_returns_opponent :
    ([mA, mB, mC].filter (fun m => m.matchup_id == some "m1")).length = 3 ∧
    find_opponent_roster rosterA [rosterA, rosterB, rosterC] [mA, mB, mC] =
      some rosterB :=
  ⟨by decide, by decide⟩

/-- C7, amended: opponent resolution never examines the size of the
matchup group.  It returns no opponent when no matchup record carries
the user's roster_id (first conjunct) or when no other record shares
the found record's matchup_id (second conjunct); and it returns the
roster resolved from the first other record sharing the matchup_id —
whatever the group size — whenever that record's roster_id is truthy
and resolves against the rosters (third conjunct).  The exactly-two
case of the original claim is the instance of the third conjunct where
the group has two members; larger groups yield the first listed other
member, not "no opponent".  Resolution is a total function. -/
theorem c7_amended_opponent_resolution :
    (∀ (ur : RosterRec) (rosters : List RosterRec) (ms : List MatchupRec),
      ms.find? (fun m => m.roster_id == ur.roster_id) = none →
      find_opponent_roster ur rosters ms = none) ∧
    (∀ (ur : RosterRec) (rosters : List RosterRec) (ms : List MatchupRec) um,
      ms.find? (fun m => m.roster_id == ur.roster_id) = some um →
      ms.find? (fun m => m.matchup_id == um.matchup_id &&
        m.roster_id != ur.roster_id) = none →
      find_opponent_roster ur rosters ms = none) ∧
    (∀ (ur : RosterRec) (rosters : List RosterRec) (ms : List MatchupRec)
       um opp r,
      ms.find? (fun m => m.roster_id == ur.roster_id) = some um →
      truthyMatchup um = true →
      ms.find? (fun m => m.matchup_id == um.matchup_id &&
        m.roster_id != ur.roster_id) = some opp →
      truthyOptStr opp.roster_id = true →
      rosters.find? (fun r2 => r2.roster_id == opp.roster_id) = some r →
      find_opponent_roster ur rosters ms = some r) := by
  refine ⟨?_, ?_, ?_⟩
  · intro ur rosters ms h1
    simp [find_opponent_roster, h1]
  · intro ur rosters ms um h1 h2
    cases htm : truthyMatchup um <;>
      simp [find_opponent_roster, h1, h2, htm]
  · intro ur rosters ms um opp r h1 htm h2 hts h3
    simp [find_opponent_roster, h1, h2, htm, hts, h3]

/-- Witness for the amended C7: the spec's two-member head-to-head
scenario — rosters 1 (u1) and 2 (u2), matchup group m1 = {1, 2} —
resolves roster 1's opponent to roster 2. -/
theorem c7_amended_witness :
    ([mA, mB].find? (fun m => m.roster_id == rosterA.roster_id) = some mA ∧
     truthyMatchup mA = true ∧
     [mA, mB].find? (fun m => m.matchup_id == mA.matchup_id &&
       m.roster_id != rosterA.roster_id) = some mB ∧
     truthyOptStr mB.roster_id = true ∧
     [rosterA, rosterB].find? (fun r2 => r2.roster_id == mB.roster_id) =
       some rosterB) ∧
    find_opponent_roster rosterA [rosterA, rosterB] [mA, mB] = some rosterB :=
  ⟨⟨by decide, by decide, by decide, by decide, by decide⟩,
   c7_amended_opponent_resolution.2.2 rosterA [rosterA, rosterB] [mA, mB]
     mA mB rosterB (by decide) (by decide) (by decide) (by decide) (by decide)⟩

/-- C8: when no roster's owner_id equals the requesting user_id, the
context build fails.  First conjunct: with all prior collections
present, it fails precisely at the "Could not find roster for user"
site (the `rosterNotFound` error).  Second conjunct: whatever the
other inputs, it never returns a context — there is no silent empty or
partial result. -/
theorem c8_missing_roster_is_hard_failure :
    (∀ (league : Json) (rosters : List RosterRec) (users : List Json)
       (matchups : List MatchupRec) (cat : Catalog)
       (scoring projections : Json) (uid : String) (week : Nat),
      pyTruthy league = true → rosters ≠ [] → users ≠ [] → matchups ≠ [] →
      cat ≠ [] → (∀ r ∈ rosters, r.owner_id ≠ some uid) →
      build_analysis_context league rosters users matchups cat scoring
        projections uid week = .error .rosterNotFound) ∧
    (∀ (league : Json) (rosters : List RosterRec) (users : List Json)
       (matchups : List MatchupRec) (cat : Catalog)
       (scoring projections : Json) (uid : String) (week : Nat)
       (ctx : AnalysisContext),
      (∀ r ∈ rosters, r.owner_id ≠ some uid) →
      build_analysis_context league rosters users matchups cat scoring
        projections uid week ≠ .ok ctx) := by
  have hfind : ∀ (rosters : List RosterRec) (uid : String),
      (∀ r ∈ rosters, r.owner_id ≠ some uid) →
      rosters.find? (fun r => r.owner_id == some uid) = none := by
    intro rosters uid hmem
    rw [List.find?_eq_none]
    intro x hx
    simpa using hmem x hx
  refine ⟨?_, ?_⟩
  · intro league rosters users matchups cat scoring projections uid week
      hl hr hu hm hc hmem
    have h2 : rosters.isEmpty = false := by
      cases rosters with
      | nil => exact absurd rfl hr
      | cons a l => rfl
    have h3 : users.isEmpty = false := by
      cases users with
      | nil => exact absurd rfl hu
      | cons a l => rfl
    have h4 : matchups.isEmpty = false := by
      cases matchups with
      | nil => exact absurd rfl hm
      | cons a l => rfl
    have h5 : cat.isEmpty = false := by
      cases cat with
      | nil => exact absurd rfl hc
      | cons a l => rfl
    simp [build_analysis_context, hl, h2, h3, h4, h5,
      hfind rosters uid hmem]
  · intro league rosters users matchups cat scoring projections uid week
      ctx hmem
    simp only [build_analysis_context, hfind rosters uid hmem]
    split_ifs <;> simp

/-- Witness for C8: the spec's missing-roster scenario — rosters owned
by u1 and u2, request for u3 — fails with the roster-not-found
error. -/
theorem c8_witness :
    pyTruthy (Json.obj [("name", Json.str "L")]) = true ∧
    ([rosterA, rosterB] : List RosterRec) ≠ [] ∧
    ([Json.str "member"] : List Json) ≠ [] ∧
    ([mA] : List MatchupRec) ≠ [] ∧
    ([("p1", pdEmpty)] : Catalog) ≠ [] ∧
    (∀ r ∈ ([rosterA, rosterB] : List RosterRec),
      r.owner_id ≠ some "u3") ∧
    build_analysis_context (Json.obj [("name", Json.str "L")])
      [rosterA, rosterB] [Json.str "member"] [mA] [("p1", pdEmpty)]
      Json.null Json.null "u3" 3 = .error .rosterNotFound :=
  ⟨rfl, by simp, by simp, by simp, by simp, by decide,
   c8_missing_roster_is_hard_failure.1 (Json.obj [("name", Json.str "L")])
     [rosterA, rosterB] [Json.str "member"] [mA] [("p1", pdEmpty)]
     Json.null Json.null "u3" 3 rfl (by simp) (by simp) (by simp) (by simp)
     (by decide)⟩

/-! ## The encryption layer (src/utils/encryption.py)

`EncryptionManager` composes two third-party primitives: PBKDF2-SHA256
key derivation (a deterministic function of the password, the salt and
iteration count being fixed) and the Fernet authenticated-encryption
scheme.  Both are external library code, modelled by their documented
contracts: Fernet decryption with the encrypting key returns the
plaintext, and decryption of a token produced under a different key
raises `cryptography.fernet.InvalidToken`.  The exception classes the
Python code can observe are modelled explicitly — in particular
`cryptography.exceptions.InvalidKey` is a distinct class from
`InvalidToken`, which is what makes the `except InvalidKey` handler in
`decrypt_data` unreachable. -/

/-- The exception classes relevant to `decrypt_data`:
`cryptography.fernet.InvalidToken`, `cryptography.exceptions.InvalidKey`
(a different class, raised by KDF verify methods, never by
`Fernet.decrypt`), and Python's ValueError with its message. -/
inductive PyExc where
  | invalidToken
  | invalidKey
  | valueError (msg : String)
deriving DecidableEq

/-- The documented contract of the Fernet authenticated-encryption
scheme over an abstract key type K and token type T: encryption is
total; decryption with the encrypting key returns the plaintext; and
decryption under any other key fails with InvalidToken (the
authentication check rejects it). -/
structure FernetLike (K T : Type) where
  enc : K → String → T
  dec : K → T → Except PyExc String
  dec_enc : ∀ k m, dec k (enc k m) = .ok m
  dec_wrong : ∀ k k2 m, k ≠ k2 → dec k2 (enc k m) = .error .invalidToken

/-- `EncryptionManager.encrypt_data`: derive the key from the password
(PBKDF2 with the fixed salt and iteration count, abstracted as the
deterministic `kdf`), construct Fernet, encrypt.  The surrounding
try/except re-raises unchanged, and encryption itself is total. -/
def encrypt_data {K T : Type} (F : FernetLike K T) (kdf : String → K)
    (data password : String) : T :=
  F.enc (kdf password) data

/-- `EncryptionManager.decrypt_data`: derive the key, construct Fernet,
decrypt.  The handlers in source order: `except InvalidKey` raises
`ValueError("Invalid password or corrupted data")`; the blanket
`except Exception` logs and re-raises the original exception. -/
def decrypt_data {K T : Type} (F : FernetLike K T) (kdf : String → K)
    (encrypted : T) (password : String) : Except PyExc String :=
  match F.dec (kdf password) encrypted with
  | .ok s => .ok s
  | .error .invalidKey =>
    .error (.valueError "Invalid password or corrupted data")
  | .error e => .error e

/-- C5: for every Fernet implementation satisfying the library
contract, every key-derivation function, every non-empty password and
every plaintext, decrypting the encryption of the plaintext under the
same password returns exactly the plaintext. -/
theorem c5_encrypt_decrypt_roundtrip :
    ∀ (K T : Type) (F : FernetLike K T) (kdf : String → K)
      (pw p : String), pw ≠ "" →
      decrypt_data F kdf (encrypt_data F kdf p pw) pw = .ok p := by
  intro K T F kdf pw p _
  rw [decrypt_data, encrypt_data, F.dec_enc]

/-- A concrete Fernet-contract instance for witnesses: the key is kept
with the message in the token and decryption compares keys. -/
def toyFernet : FernetLike String (String × String) where
  enc := fun k m => (k, m)
  dec := fun k t => if t.1 = k then .ok t.2 else .error .invalidToken
  dec_enc := by intro k m; simp
  dec_wrong := by
    intro k k2 m h
    exact if_neg h

/-- Witness for C5 at the toy instance, password "pw" and plaintext
"hello". -/
theorem c5_witness :
    ("pw" : String) ≠ "" ∧
    decrypt_data toyFernet (fun s => s)
      (encrypt_data toyFernet (fun s => s) "hello" "pw") "pw" =
        .ok "hello" :=
  ⟨by decide,
   c5_encrypt_decrypt_roundtrip String (String × String) toyFernet
     (fun s => s) "pw" "hello" (by decide)⟩

/-- C6: the claim says decrypting under a wrong password fails with
the single distinguished InvalidPassword error (the
`ValueError("Invalid password or corrupted data")` raised by the
`except InvalidKey` handler).  But `Fernet.decrypt` signals a failed
authentication check with `cryptography.fernet.InvalidToken`, which is
not a subclass of `cryptography.exceptions.InvalidKey`; the
`except InvalidKey` branch never matches and the blanket
`except Exception` re-raises `InvalidToken` itself.  Evaluating the
embedded code: whenever the derived keys differ, `decrypt_data`
returns the raw InvalidToken error (first conjunct) and never the
distinguished ValueError (second conjunct). -/
theorem c6_wrong_password_raises_invalid_token_not_value_error :
    ∀ (K T : Type) (F : FernetLike K T) (kdf : String → K)
      (pw1 pw2 p : String), kdf pw1 ≠ kdf pw2 →
      decrypt_data F kdf (encrypt_data F kdf p pw1) pw2 =
        .error .invalidToken ∧
      ∀ msg, decrypt_data F kdf (encrypt_data F kdf p pw1) pw2 ≠
        .error (.valueError msg) := by
  intro K T F kdf pw1 pw2 p hk
  have h : decrypt_data F kdf (encrypt_data F kdf p pw1) pw2 =
      .error .invalidToken := by
    rw [decrypt_data, encrypt_data, F.dec_wrong (kdf pw1) (kdf pw2) p hk]
  refine ⟨h, fun msg hmsg => ?_⟩
  rw [h] at hmsg
  simp at hmsg

/-- Witness for C6 at the toy instance: passwords "a" and "b" derive
distinct keys; decryption yields InvalidToken, not the ValueError. -/
theorem c6_witness :
    ((fun s => s) "a" : String) ≠ (fun s => s) "b" ∧
    decrypt_data toyFernet (fun s => s)
      (encrypt_data toyFernet (fun s => s) "secret" "a") "b" =
        .error .invalidToken ∧
    decrypt_data toyFernet (fun s => s)
      (encrypt_data toyFernet (fun s => s) "secret" "a") "b" ≠
        .error (.valueError "Invalid password or corrupted data") :=
  ⟨by decide,
   (c6_wrong_password_raises_invalid_token_not_value_error String
     (String × String) toyFernet (fun s => s) "a" "b" "secret"
     (by decide)).1,
   (c6_wrong_password_raises_invalid_token_not_value_error String
     (String × String) toyFernet (fun s => s) "a" "b" "secret"
     (by decide)).2 "Invalid password or corrupted data"⟩
